import Mathlib

/-!
Verification of the natural-language query interpreter
(`src/services/query.py`, `src/utils/database.py`, `src/utils/errors.py`,
`src/config/config.py`).

The Python code is shallowly embedded: strings are Lean `String`s, the
in-memory tables are association lists built from the static schema, Python
exceptions become an explicit `PyErr` error type threaded through `Except`,
and Python floats (which in this program only ever hold exact small integer
sums and their quotients) are modelled as rationals.

The regular expressions used by the code are fixed patterns over the three
disjoint character classes word (`\w`), whitespace (`\s`) and punctuation
literals, so greedy left-to-right matching without backtracking is exact;
they are embedded as deterministic recursive matchers below.  All callers
pass the lowercased query to the extraction helpers, so the `re.IGNORECASE`
flag on `_extract_filter_condition`'s searches has no effect and the
matchers use the lowercase literals directly.
-/

/-! ### Character classes and substring search -/

/-- Python `\w` (ASCII): alphanumeric or underscore. -/
def isWordChar (c : Char) : Bool := c.isAlphanum || c == '_'

/-- Python `\s` (ASCII): space, tab, newline, carriage return, vertical tab, form feed. -/
def isSpaceChar (c : Char) : Bool :=
  c == ' ' || c == '\t' || c == '\n' || c == '\r' || c == Char.ofNat 11 || c == Char.ofNat 12

/-- The ASCII single-quote character. -/
def quoteChar : Char := Char.ofNat 39

/-- Does `p` occur as a contiguous sublist of the second argument?  (Python `p in q`.) -/
def subAux (p : List Char) : List Char → Bool
  | [] => p.isEmpty
  | l@(_ :: rest) => p.isPrefixOf l || subAux p rest

/-- Python's substring test `sub in q`. -/
def containsSubstr (q sub : String) : Bool := subAux sub.data q.data

/-- Python `str.lower` on the ASCII range. -/
def lowerChar (c : Char) : Char :=
  if 65 ≤ c.toNat && c.toNat ≤ 90 then Char.ofNat (c.toNat + 32) else c

/-- Python `str.lower`. -/
def pyLower (s : String) : String := String.mk (s.data.map lowerChar)

/-- Scan every suffix of the input, leftmost first, for a per-position match
(the search behaviour of Python `re.search`). -/
def searchO {α : Type} (m : List Char → Option α) : List Char → Option α
  | [] => m []
  | l@(_ :: rest) => (m l).orElse fun _ => searchO m rest

/-- Boolean variant of `searchO`. -/
def searchB (m : List Char → Bool) : List Char → Bool
  | [] => m []
  | l@(_ :: rest) => m l || searchB m rest

/-- Match a literal and return the remainder. -/
def dropLit (pat cs : List Char) : Option (List Char) :=
  if pat.isPrefixOf cs then some (cs.drop pat.length) else none

/-- Embeds `\w+`, greedy: the maximal nonempty word-character run and the remainder. -/
def munchWord (cs : List Char) : Option (List Char × List Char) :=
  match cs with
  | c :: _ => if isWordChar c then some (cs.takeWhile isWordChar, cs.dropWhile isWordChar) else none
  | [] => none

/-- Embeds `\s+`, greedy: requires at least one whitespace character. -/
def munchSpaces1 (cs : List Char) : Option (List Char) :=
  match cs with
  | c :: _ => if isSpaceChar c then some (cs.dropWhile isSpaceChar) else none
  | [] => none

/-- Embeds `'?`: consume one single quote when present. -/
def skipQuote (cs : List Char) : List Char :=
  match cs with
  | c :: rest => if c = quoteChar then rest else cs
  | [] => cs

/-! ### Values, records and the table store (`database.py`, `config.py`) -/

/-- A scalar cell value: the seed schema holds integers and strings only. -/
inductive Value where
  | int (n : Int)
  | str (s : String)
deriving DecidableEq, Repr

/-- A row, as produced by `dict(zip(columns, row))`: an association list from
column name to value, in column order. -/
abbrev Record : Type := List (String × Value)

/-- Embeds `Config.DATABASE_SCHEMA`: table name, column list, seed rows. -/
def DATABASE_SCHEMA : List (String × List String × List (List Value)) :=
  [("sales",
    (["id", "product", "amount", "date", "region"],
     [[.int 1, .str "Laptop", .int 1200, .str "2023-01-15", .str "North"],
      [.int 2, .str "Phone", .int 800, .str "2023-01-16", .str "South"],
      [.int 3, .str "Tablet", .int 450, .str "2023-01-17", .str "East"],
      [.int 4, .str "Laptop", .int 1200, .str "2023-01-18", .str "West"],
      [.int 5, .str "Phone", .int 800, .str "2023-01-19", .str "North"]])),
   ("customers",
    (["id", "name", "email", "join_date"],
     [[.int 1, .str "Alice", .str "alice@example.com", .str "2022-05-10"],
      [.int 2, .str "Bob", .str "bob@example.com", .str "2022-06-15"],
      [.int 3, .str "Charlie", .str "charlie@example.com", .str "2022-07-20"]])),
   ("products",
    (["id", "name", "category", "price"],
     [[.int 1, .str "Laptop", .str "Electronics", .int 1200],
      [.int 2, .str "Phone", .str "Electronics", .int 800],
      [.int 3, .str "Tablet", .str "Electronics", .int 450]]))]

/-- Embeds `Database._initialize_database`: each row zipped with the column names. -/
def dbTables : List (String × List Record) :=
  DATABASE_SCHEMA.map fun nt => (nt.1, nt.2.2.map fun row => nt.2.1.zip row)

/-- Embeds `Database.get_table_names`. -/
def get_table_names : List String := dbTables.map (·.1)

/-- Embeds `Database.get_table`: the table's records, or `[]` for an unknown name. -/
def get_table (t : String) : List Record :=
  match dbTables.find? (fun p => p.1 == t) with
  | some p => p.2
  | none => []

/-- Embeds `Database.get_table_columns`: `None` when the table is unknown or empty,
else the first record's keys. -/
def get_table_columns (t : String) : Option (List String) :=
  match dbTables.find? (fun p => p.1 == t) with
  | none => none
  | some p =>
    match p.2 with
    | [] => none
    | r :: _ => some (r.map (·.1))

/-- Python `dict.get` on a record. -/
def recordGet (r : Record) (c : String) : Option Value :=
  match r.find? (fun kv => kv.1 == c) with
  | some kv => some kv.2
  | none => none

/-- Embeds `isinstance(x, (int, float))` on a looked-up cell (`None` for a missing key). -/
def isNumericOpt : Option Value → Bool
  | some (.int _) => true
  | _ => false

/-- Python `str()` of a looked-up cell, with the `item.get(column, "")` default. -/
def pyStrD : Option Value → String
  | none => ""
  | some (.int n) => toString n
  | some (.str s) => s

/-- Embeds `item[column]` under the all-numeric guard that every caller checks
first; the non-integer case is unreachable there (Python would have raised). -/
def valToInt : Option Value → Int
  | some (.int n) => n
  | _ => 0

/-- Embeds `sum(float(item[column]) for item in data)`: every addend is an integer
cell (the callers' numeric guard), so the float sum is this exact integer
sum, embedded into `ℚ`. -/
def pySum (data : List Record) (c : String) : ℚ :=
  mkRat (data.foldl (fun acc item => acc + valToInt (recordGet item c)) 0) 1

/-! ### Intent predicates (`QueryProcessor._is_*`) -/

/-- The sum phrases of `_is_sum`. -/
def sum_phrases : List String :=
  ["sum of", "total", "add up",
   "what is the total", "calculate the total",
   "total amount of", "sum amount of"]

/-- Embeds `QueryProcessor._is_sum`. -/
def is_sum (query : String) : Bool := sum_phrases.any fun phrase => containsSubstr query phrase

/-- The filter keywords of `_is_filter`. -/
def filter_keywords : List String := ["where", "filter", "with", "equals", "=", "is"]

/-- The tail of `_is_filter`'s condition regex after the interpolated keyword:
`\s+\w+\s*=\s*'?\w+'?`.  The character classes are disjoint, so greedy
matching is exact. -/
def condSuffix (cs : List Char) : Bool :=
  match cs with
  | [] => false
  | c :: rest =>
    isSpaceChar c &&
      (let r1 := rest.dropWhile isSpaceChar
       match r1 with
       | [] => false
       | d :: r2 =>
         isWordChar d &&
           (let r3 := (r2.dropWhile isWordChar).dropWhile isSpaceChar
            match r3 with
            | '=' :: r4 =>
              let r5 := skipQuote (r4.dropWhile isSpaceChar)
              match r5 with
              | e :: _ => isWordChar e
              | [] => false
            | _ => false))

/-- One search position of `re.search(rf"{kw}\s+\w+\s*=\s*'?\w+'?", query)`. -/
def condMatchAt (kw cs : List Char) : Bool :=
  match dropLit kw cs with
  | some rest => condSuffix rest
  | none => false

/-- Shared lookup of `_find_table_in_query` and the search loop of `_extract_table_name`: the first known table name occurring in the query. -/
def table_search (query : String) : Option String :=
  get_table_names.find? fun t => containsSubstr query t

/-- Embeds `QueryProcessor._find_table_in_query`. -/
def find_table_in_query (query : String) : Option String := table_search query

/-- Embeds `QueryProcessor._is_filter`: a filter keyword occurs, a known table name
occurs, and the `<kw>\s+\w+\s*=\s*'?\w+'?` condition regex matches for some
keyword (the `=` sign is mandatory in the code). -/
def is_filter (query : String) : Bool :=
  (filter_keywords.any fun kw => containsSubstr query kw) &&
    (find_table_in_query query).isSome &&
    (filter_keywords.any fun kw => searchB (condMatchAt kw.data) query.data)

/-- Embeds `QueryProcessor._is_select_all`. -/
def is_select_all (query : String) : Bool :=
  ["show me all", "list all", "get all", "display all"].any fun phrase =>
    containsSubstr query phrase

/-- Embeds `QueryProcessor._is_count`. -/
def is_count (query : String) : Bool :=
  containsSubstr query "how many" || containsSubstr query "count"

/-- Embeds `QueryProcessor._is_avg`. -/
def is_avg (query : String) : Bool :=
  containsSubstr query "average" || containsSubstr query "avg"

/-! ### Errors (`errors.py`) and Python string formatting

`InvalidQueryError` and `DatabaseError` carry a message plus optional
`query` / `operation` / `table` fields and a `details` dict; the code in
`query.py` never supplies `query`, `operation` or `table`.  Their `__str__`
output, which the code embeds into wrapper messages via f-strings, is
reproduced exactly, including Python's `repr` of the details dict.
`UnboundLocalError`, `TypeError` and `IndexError` model the runtime faults
reachable in `_process_sum`'s handler and in `validate_query`. -/

/-- A value stored in an error's `details` dict. -/
inductive DetailVal where
  | s (v : String)
  | list (v : List String)
  | optList (v : Option (List String))
deriving DecidableEq, Repr

/-- An error's `details` dict, in insertion order. -/
abbrev Details : Type := List (String × DetailVal)

/-- The Python exceptions raised by the embedded code. -/
inductive PyErr where
  | invalidQuery (message : String) (query : Option String) (details : Details)
  | database (message : String) (operation tbl : Option String) (details : Details)
  | unboundLocal (message : String)
  | typeError (message : String)
  | indexError (message : String)
deriving DecidableEq, Repr

/-- Escape one character the way Python `repr` of a string does, given the
chosen quote character. -/
def pyEscape (qc c : Char) : String :=
  if c = '\\' then "\\\\"
  else if c = '\n' then "\\n"
  else if c = '\r' then "\\r"
  else if c = '\t' then "\\t"
  else if c = qc then "\\" ++ String.singleton qc
  else String.singleton c

/-- Python `repr` of a string: single quotes, or double quotes when the string
contains a single quote but no double quote. -/
def pyReprString (s : String) : String :=
  let hasSQ := s.data.contains quoteChar
  let hasDQ := s.data.contains (Char.ofNat 34)
  let qc := if hasSQ && !hasDQ then Char.ofNat 34 else quoteChar
  String.singleton qc ++ String.join (s.data.map (pyEscape qc)) ++ String.singleton qc

/-- Python `repr`/`str` of a list of strings. -/
def pyReprStrList (l : List String) : String :=
  "[" ++ String.intercalate ", " (l.map pyReprString) ++ "]"

/-- Python `str` of an optional string (`None` for `none`). -/
def fmtOptStr : Option String → String
  | none => "None"
  | some s => s

/-- Python `str` of an optional list of strings (`None` for `none`). -/
def fmtOptStrList : Option (List String) → String
  | none => "None"
  | some l => pyReprStrList l

/-- Python `repr` of a details value. -/
def reprDetailVal : DetailVal → String
  | .s v => pyReprString v
  | .list v => pyReprStrList v
  | .optList v => fmtOptStrList v

/-- Python `repr` of the details dict. -/
def pyReprDetails (d : Details) : String :=
  "\x7b" ++ String.intercalate ", " (d.map fun kv => pyReprString kv.1 ++ ": " ++ reprDetailVal kv.2) ++ "\x7d"

/-- Python `str(e)`: the `__str__` methods of `errors.py` for the two custom
exceptions, and the bare message for builtin exceptions. -/
def errStr : PyErr → String
  | .invalidQuery m q d =>
    "InvalidQueryError: " ++ m ++
      (match q with | some s => "\nQuery: " ++ s | none => "") ++
      (if d.isEmpty then "" else "\nDetails: " ++ pyReprDetails d)
  | .database m op tb d =>
    "DatabaseError: " ++ m ++
      (match op with | some s => "\nOperation: " ++ s | none => "") ++
      (match tb with | some s => "\nTable: " ++ s | none => "") ++
      (if d.isEmpty then "" else "\nDetails: " ++ pyReprDetails d)
  | .unboundLocal m => m
  | .typeError m => m
  | .indexError m => m

/-- Embeds `type(e).__name__`. -/
def pyTypeName : PyErr → String
  | .invalidQuery _ _ _ => "InvalidQueryError"
  | .database _ _ _ _ => "DatabaseError"
  | .unboundLocal _ => "UnboundLocalError"
  | .typeError _ => "TypeError"
  | .indexError _ => "IndexError"

/-! ### Entity extraction (`_extract_table_name`, `_extract_table_and_column`,
`_extract_filter_condition`) -/

/-- The error raised by `_extract_table_name` when no known table name occurs. -/
def table_not_found_err : PyErr :=
  .invalidQuery "Could not determine table name" none
    [("available_tables", .list get_table_names)]

/-- Embeds `QueryProcessor._extract_table_name`. -/
def extract_table_name (query : String) : Except PyErr String :=
  match table_search query with
  | some t => .ok t
  | none => .error table_not_found_err

/-- Embeds `QueryProcessor.COLUMN_MAPPINGS`, in dict insertion order. -/
def COLUMN_MAPPINGS : List (String × List String) :=
  [("amount", ["amount", "total", "sum", "value", "price", "sales", "revenue"]),
   ("price", ["price", "cost", "value", "amount", "rate"])]

/-- The synonym loop of `_extract_table_and_column`: for the first canonical
column with a synonym occurring in the query, return it when it exists in the
table's columns, else keep looking; testing `col in None` (unknown or empty
table) raises `TypeError` in Python. -/
def synLookup (query : String) (cols : Option (List String)) :
    List (String × List String) → Except PyErr (Option String)
  | [] => .ok none
  | m :: rest =>
    if m.2.any (fun syn => containsSubstr query syn) then
      match cols with
      | none => .error (.typeError "argument of type 'NoneType' is not iterable")
      | some cs =>
        if cs.contains m.1 then .ok (some m.1) else synLookup query cols rest
    else synLookup query cols rest

/-- The body of `_extract_table_and_column`'s `try` block. -/
def extract_tc_inner (query : String) (possible_columns : List String) :
    Except PyErr (String × String) :=
  match extract_table_name query with
  | .error e => .error e
  | .ok table =>
    if containsSubstr query "total amount of" || containsSubstr query "sum of amount" then
      .ok (table, "amount")
    else if containsSubstr query "total price of" || containsSubstr query "sum of price" then
      .ok (table, "price")
    else
      match possible_columns.find? (fun col => containsSubstr query col) with
      | some col => .ok (table, col)
      | none =>
        match synLookup query (get_table_columns table) COLUMN_MAPPINGS with
        | .error e => .error e
        | .ok (some col) => .ok (table, col)
        | .ok none =>
          .error (.invalidQuery "Could not determine column to process" none
            [("available_columns", .optList (get_table_columns table))])

/-- Embeds `QueryProcessor._extract_table_and_column`: the `except` clause re-wraps
every failure into `InvalidQueryError("Failed to extract table/column: ...")`
with empty details. -/
def extract_table_and_column (query : String) (possible_columns : List String) :
    Except PyErr (String × String) :=
  match extract_tc_inner query possible_columns with
  | .ok r => .ok r
  | .error e => .error (.invalidQuery ("Failed to extract table/column: " ++ errStr e) none [])

/-- One position of pattern `show me all (\w+)\s+where\s+(\w+)\s+is\s+(\w+)`. -/
def matchPat1At (cs : List Char) : Option (String × String × String) := do
  let r ← dropLit "show me all ".data cs
  let (t, r) ← munchWord r
  let r ← munchSpaces1 r
  let r ← dropLit "where".data r
  let r ← munchSpaces1 r
  let (c, r) ← munchWord r
  let r ← munchSpaces1 r
  let r ← dropLit "is".data r
  let r ← munchSpaces1 r
  let (v, _) ← munchWord r
  pure (String.mk t, String.mk c, String.mk v)

/-- One position of pattern `filter\s+(\w+)\s+where\s+(\w+)\s+=\s+'?(\w+)'?`. -/
def matchPat2At (cs : List Char) : Option (String × String × String) := do
  let r ← dropLit "filter".data cs
  let r ← munchSpaces1 r
  let (t, r) ← munchWord r
  let r ← munchSpaces1 r
  let r ← dropLit "where".data r
  let r ← munchSpaces1 r
  let (c, r) ← munchWord r
  let r ← munchSpaces1 r
  let r ← dropLit "=".data r
  let r ← munchSpaces1 r
  let r := skipQuote r
  let (v, _) ← munchWord r
  pure (String.mk t, String.mk c, String.mk v)

/-- One position of pattern `get\s+(\w+)\s+with\s+(\w+)\s+=\s+'?(\w+)'?`. -/
def matchPat3At (cs : List Char) : Option (String × String × String) := do
  let r ← dropLit "get".data cs
  let r ← munchSpaces1 r
  let (t, r) ← munchWord r
  let r ← munchSpaces1 r
  let r ← dropLit "with".data r
  let r ← munchSpaces1 r
  let (c, r) ← munchWord r
  let r ← munchSpaces1 r
  let r ← dropLit "=".data r
  let r ← munchSpaces1 r
  let r := skipQuote r
  let (v, _) ← munchWord r
  pure (String.mk t, String.mk c, String.mk v)

/-- The alternation `(is|equals|=)`: the three literals start with distinct
characters, so at most one branch can match. -/
def matchOpAlt (cs : List Char) : Option (List Char) :=
  (dropLit "is".data cs).orElse fun _ =>
    (dropLit "equals".data cs).orElse fun _ => dropLit "=".data cs

/-- One position of the fallback pattern `where\s+(\w+)\s+(is|equals|=)\s+'?(\w+)'?`,
returning the first and third capture groups. -/
def matchWhereAt (cs : List Char) : Option (String × String) := do
  let r ← dropLit "where".data cs
  let r ← munchSpaces1 r
  let (c, r) ← munchWord r
  let r ← munchSpaces1 r
  let r ← matchOpAlt r
  let r ← munchSpaces1 r
  let r := skipQuote r
  let (v, _) ← munchWord r
  pure (String.mk c, String.mk v)

/-- The three-pattern loop of `_extract_filter_condition`, first match wins. -/
def filter_patterns_search (query : String) : Option (String × String × String) :=
  (searchO matchPat1At query.data).orElse fun _ =>
    (searchO matchPat2At query.data).orElse fun _ => searchO matchPat3At query.data

/-- The error raised when neither the patterns nor the fallback clause parse. -/
def filter_parse_err : PyErr :=
  .invalidQuery "Could not parse filter condition" none
    [("expected_patterns",
      .list ["Show me all <table> where <column> is <value>",
             "Filter <table> where <column> = <value>"])]

/-- Embeds `QueryProcessor._extract_filter_condition`: the anchored patterns first
(returned directly), then the `try` block extracting the table and searching a
generic `where` clause, whose failures are re-wrapped by the `except` clause. -/
def extract_filter_condition (query : String) : Except PyErr (String × String × String) :=
  match filter_patterns_search query with
  | some r => .ok (r.1, r.2.1, pyLower r.2.2)
  | none =>
    let inner : Except PyErr (String × String × String) :=
      match extract_table_name query with
      | .error e => .error e
      | .ok table =>
        match searchO matchWhereAt query.data with
        | some cv => .ok (table, cv.1, pyLower cv.2)
        | none => .error filter_parse_err
    match inner with
    | .ok r => .ok r
    | .error e =>
      .error (.invalidQuery ("Failed to extract filter condition: " ++ errStr e) none [])

/-! ### The query executor (`_process_*`, `process_query`) -/

/-- The five success payload shapes produced by the processors (all carry
`status: "success"` and a `query_type` given by `query_type_of`). -/
inductive Payload where
  | sumP (tbl column : String) (total : ℚ)
  | filterP (tbl filter_column filter_value : String) (results : List Record) (cnt : Nat)
  | selectAllP (tbl : String) (results : List Record) (cnt : Nat)
  | countP (tbl : String) (cnt : Nat)
  | averageP (tbl column : String) (average : ℚ) (cnt : Nat) (warning : Option String)
deriving DecidableEq, Repr

/-- The `query_type` field of a success payload. -/
def query_type_of : Payload → String
  | .sumP _ _ _ => "sum"
  | .filterP _ _ _ _ _ => "filter"
  | .selectAllP _ _ _ => "select_all"
  | .countP _ _ => "count"
  | .averageP _ _ _ _ _ => "average"

/-- The `query_type` of a processor result, `none` on error. -/
def okQueryType : Except PyErr Payload → Option String
  | .ok p => some (query_type_of p)
  | .error _ => none

/-- Is a processor result a success? -/
def exOk : Except PyErr Payload → Bool
  | .ok _ => true
  | .error _ => false

/-- Python `column or 'unknown'` (an empty string is falsy). -/
def orUnknown (s : String) : String := if s = "" then "unknown" else s

/-- Lines 76-89 of `_process_sum`, after table/column extraction succeeded:
the all-numeric guard, then the float sum; a guard failure is caught by the
`except` clause (where `table`/`column` are bound). -/
def sum_over (tbl column : String) : Except PyErr Payload :=
  let data := get_table tbl
  if !(data.all fun item => isNumericOpt (recordGet item column)) then
    .error (.database
      ("Failed to calculate sum for " ++ orUnknown column ++ " in " ++ orUnknown tbl)
      none none
      [("error", .s (errStr (.invalidQuery ("Column '" ++ column ++ "' is not numeric") none [])))])
  else
    .ok (.sumP tbl column (pySum data column))

/-- The fault `_process_sum`'s own `except` clause raises when extraction
failed: its f-string reads the still-unbound locals `column`/`table`. -/
def sum_handler_fault : PyErr :=
  .unboundLocal "cannot access local variable 'column' where it is not associated with a value"

/-- Embeds `QueryProcessor._process_sum`.  When extraction raises, the `except`
clause's f-string reads the still-unbound locals `column`/`table`, so the
handler itself raises `UnboundLocalError` instead of a `DatabaseError`. -/
def process_sum (query : String) : Except PyErr Payload :=
  match extract_table_and_column query ["amount", "price"] with
  | .error _ => .error sum_handler_fault
  | .ok tc => sum_over tc.1 tc.2

/-- The record filter of `_process_filter`:
`str(item.get(column, "")).lower() == value.lower()`. -/
def filter_matches (tbl column value : String) : List Record :=
  (get_table tbl).filter fun item => pyLower (pyStrD (recordGet item column)) == pyLower value

/-- Lines 101-116 of `_process_filter`, after condition extraction succeeded. -/
def filter_over (tbl column value : String) : Except PyErr Payload :=
  .ok (.filterP tbl column value (filter_matches tbl column value)
        (filter_matches tbl column value).length)

/-- Embeds `QueryProcessor._process_filter`. -/
def process_filter (query : String) : Except PyErr Payload :=
  match extract_filter_condition query with
  | .error e => .error (.database ("Failed to filter records: " ++ errStr e) none none [])
  | .ok tcv => filter_over tcv.1 tcv.2.1 tcv.2.2

/-- Embeds `QueryProcessor._process_select_all`. -/
def process_select_all (query : String) : Except PyErr Payload :=
  match extract_table_name query with
  | .error e => .error (.database ("Failed to retrieve data: " ++ errStr e) none none [])
  | .ok tbl => .ok (.selectAllP tbl (get_table tbl) (get_table tbl).length)

/-- Embeds `QueryProcessor._process_count`. -/
def process_count (query : String) : Except PyErr Payload :=
  match extract_table_name query with
  | .error e => .error (.database ("Failed to count records: " ++ errStr e) none none [])
  | .ok tbl => .ok (.countP tbl (get_table tbl).length)

/-- Lines 156-181 of `_process_avg`, after table/column extraction succeeded:
the empty-table early return with a warning, then the numeric guard and the
average. -/
def avg_over (tbl column : String) : Except PyErr Payload :=
  let data := get_table tbl
  if data.isEmpty then
    .ok (.averageP tbl column 0 0 (some "Table is empty"))
  else if !(data.all fun item => isNumericOpt (recordGet item column)) then
    .error (.database
      ("Failed to calculate average: " ++
        errStr (.invalidQuery ("Column '" ++ column ++ "' is not numeric") none []))
      none none [])
  else
    .ok (.averageP tbl column (Rat.div (pySum data column) (mkRat data.length 1)) data.length none)

/-- Embeds `QueryProcessor._process_avg`. -/
def process_avg (query : String) : Except PyErr Payload :=
  match extract_table_and_column query ["amount", "price"] with
  | .error e => .error (.database ("Failed to calculate average: " ++ errStr e) none none [])
  | .ok tc => avg_over tc.1 tc.2

/-- The classified intent of a lowercased query, in `process_query`'s
dispatch order. -/
inductive Intent where
  | sum | filter | select_all | count | avg
deriving DecidableEq, Repr

/-- The intent predicate chain of `process_query` (and of `explain_query`). -/
def intentOf (query : String) : Option Intent :=
  if is_sum query then some .sum
  else if is_filter query then some .filter
  else if is_select_all query then some .select_all
  else if is_count query then some .count
  else if is_avg query then some .avg
  else none

/-- The error raised when no intent predicate matches. -/
def no_intent_err : PyErr :=
  .invalidQuery "Could not determine query intent" none
    [("supported_intents", .list ["select_all", "count", "sum", "avg", "filter"])]

/-- The guard error for empty (or non-string) input. -/
def empty_query_err : PyErr := .invalidQuery "Query must be a non-empty string" none []

/-- The dispatch chain of `process_query` on the lowercased query. -/
def pq_dispatch (query : String) : Except PyErr Payload :=
  if is_sum query then process_sum query
  else if is_filter query then process_filter query
  else if is_select_all query then process_select_all query
  else if is_count query then process_count query
  else if is_avg query then process_avg query
  else .error no_intent_err

/-- The `try` body of `process_query`: the emptiness guard, lowercasing, and
the dispatch. -/
def pq_body (natural_query : String) : Except PyErr Payload :=
  if natural_query = "" then .error empty_query_err
  else pq_dispatch (pyLower natural_query)

/-- The `except` clauses of `process_query`: `DatabaseError` is re-raised
unchanged; every other exception — including any `InvalidQueryError` raised
inside — is replaced by `InvalidQueryError("Error processing query: " +
str(e))` with empty details. -/
def pq_wrap : Except PyErr Payload → Except PyErr Payload
  | .ok p => .ok p
  | .error (.database m op tb d) => .error (.database m op tb d)
  | .error e => .error (.invalidQuery ("Error processing query: " ++ errStr e) none [])

/-- Embeds `QueryProcessor.process_query`. -/
def process_query (natural_query : String) : Except PyErr Payload :=
  pq_wrap (pq_body natural_query)

/-! ### The explainer (`explain_query`) -/

/-- The success payload of `explain_query`.  The dict starts with
`query_type`/`table`/`column` set to `None`; the filter branch adds
`filter_column`/`filter_value` and leaves `column` as `None`. -/
structure Explanation where
  query : String
  query_type : String
  tbl : String
  column : Option String
  filter_column : Option String
  filter_value : Option String
  processing_steps : List String
deriving DecidableEq, Repr

/-- What `explain_query` returns: the explanation, or one of its two
`except`-clause error payloads (both with `status: "error"`). -/
inductive EPayload where
  | success (e : Explanation)
  | errInvalid (message query : String) (details : Details) (suggestion : String)
  | errOther (message query : String) (typeName suggestion : String)
deriving DecidableEq, Repr

/-- The `status` field of an `explain_query` payload. -/
def eStatus : EPayload → String
  | .success _ => "success"
  | .errInvalid _ _ _ _ => "error"
  | .errOther _ _ _ _ => "error"

/-- The `try` body of `explain_query`: guard, lowercasing, and the intent
chain with its per-intent extraction and step descriptions. -/
def explain_inner (natural_query : String) : Except PyErr Explanation :=
  if natural_query = "" then .error empty_query_err
  else
    let query := pyLower natural_query
    if is_sum query then
      match extract_table_and_column query ["amount", "price"] with
      | .error e => .error e
      | .ok tc =>
        .ok { query := natural_query, query_type := "sum", tbl := tc.1,
              column := some tc.2, filter_column := none, filter_value := none,
              processing_steps :=
                ["Identified as sum query",
                 "Extracted table name: " ++ tc.1,
                 "Selected column for summation: " ++ tc.2,
                 "Will calculate sum of " ++ tc.2 ++ " values from " ++ tc.1 ++ " table"] }
    else if is_filter query then
      match extract_filter_condition query with
      | .error e => .error e
      | .ok tcv =>
        .ok { query := natural_query, query_type := "filter", tbl := tcv.1,
              column := none, filter_column := some tcv.2.1, filter_value := some tcv.2.2,
              processing_steps :=
                ["Identified as filter query",
                 "Extracted table name: " ++ tcv.1,
                 "Identified filter condition: " ++ tcv.2.1 ++ " = " ++ tcv.2.2,
                 "Will retrieve records from " ++ tcv.1 ++ " where " ++ tcv.2.1 ++
                   " matches " ++ tcv.2.2] }
    else if is_select_all query then
      match extract_table_name query with
      | .error e => .error e
      | .ok tbl =>
        .ok { query := natural_query, query_type := "select_all", tbl := tbl,
              column := none, filter_column := none, filter_value := none,
              processing_steps :=
                ["Identified as select all query",
                 "Extracted table name: " ++ tbl,
                 "Will retrieve all records from " ++ tbl ++ " without filtering"] }
    else if is_count query then
      match extract_table_name query with
      | .error e => .error e
      | .ok tbl =>
        .ok { query := natural_query, query_type := "count", tbl := tbl,
              column := none, filter_column := none, filter_value := none,
              processing_steps :=
                ["Identified as count query",
                 "Extracted table name: " ++ tbl,
                 "Will count all records in " ++ tbl ++ " table"] }
    else if is_avg query then
      match extract_table_and_column query ["amount", "price"] with
      | .error e => .error e
      | .ok tc =>
        .ok { query := natural_query, query_type := "average", tbl := tc.1,
              column := some tc.2, filter_column := none, filter_value := none,
              processing_steps :=
                ["Identified as average query",
                 "Extracted table name: " ++ tc.1,
                 "Selected column for averaging: " ++ tc.2,
                 "Will calculate average of " ++ tc.2 ++ " values from " ++ tc.1 ++ " table"] }
    else .error no_intent_err

/-- Embeds `QueryProcessor.explain_query`: the two `except` clauses turn every
internal failure into a structured error payload; nothing propagates. -/
def explain_query (natural_query : String) : EPayload :=
  match explain_inner natural_query with
  | .ok e => .success e
  | .error (.invalidQuery m q d) =>
    .errInvalid (errStr (.invalidQuery m q d)) natural_query d
      "Try rephrasing your query using one of the supported patterns"
  | .error e =>
    .errOther ("Could not explain query: " ++ errStr e) natural_query (pyTypeName e)
      "Check your query syntax and try again"

/-! ### The validator (`validate_query`) -/

/-- The accumulating validation report (`status: "success"` shape). -/
structure VReport where
  valid : Bool
  query : String
  tbl : Option String
  columns : List String
  conditions : List (String × String × String)
  issues : List String
deriving DecidableEq, Repr

/-- What `validate_query` returns: the report, or the outer `except` clause's
`status: "error"` payload (which also carries `valid: false`). -/
inductive VPayload where
  | report (r : VReport)
  | failure (query error : String)
deriving DecidableEq, Repr

/-- The `status` field of a `validate_query` payload. -/
def vStatus : VPayload → String
  | .report _ => "success"
  | .failure _ _ => "error"

/-- The `valid` field of a `validate_query` payload. -/
def vValid : VPayload → Bool
  | .report r => r.valid
  | .failure _ _ => false

/-- The `issues` list of a `validate_query` payload (absent on the error shape). -/
def vIssues : VPayload → List String
  | .report r => r.issues
  | .failure _ _ => []

/-- Embeds `get_table_columns` applied to the (possibly `None`) components table. -/
def get_table_columns_opt : Option String → Option (List String)
  | none => none
  | some t => get_table_columns t

/-- Embeds `get_table` applied to the (possibly `None`) components table
(`tables.get(None, [])` is `[]`). -/
def get_table_opt : Option String → List Record
  | none => []
  | some t => get_table t

/-- Python truthiness of the components table (`None` and `""` are falsy). -/
def tableTruthy : Option String → Bool
  | none => false
  | some s => !(s == "")

/-- The issue recorded for a column missing from the table. -/
def column_issue (tbl : Option String) (col : String) : String :=
  "Column '" ++ col ++ "' not found in table '" ++ fmtOptStr tbl ++
    "'. Available columns: " ++ fmtOptStrList (get_table_columns_opt tbl)

/-- The issue recorded for a missing or unknown table. -/
def table_issue (tbl : Option String) : String :=
  "Table '" ++ fmtOptStr tbl ++ "' not found. Available tables: " ++
    pyReprStrList get_table_names

/-- The issue recorded by the numeric check for sum/average queries. -/
def numeric_issue (col : String) : String :=
  "Column '" ++ col ++ "' is not numeric and cannot be used for sum/average"

/-- The table-existence check of `validate_query`
(`if not table or table not in db_instance.get_table_names()`). -/
def vCheckTable (r : VReport) : VReport :=
  if tableTruthy r.tbl && get_table_names.contains (fmtOptStr r.tbl) then r
  else { r with valid := false, issues := r.issues ++ [table_issue r.tbl] }

/-- The column-existence loop of `validate_query`: every column is checked
(no short-circuit); `col not in get_table_columns(table)` raises `TypeError`
when the lookup returns `None`. -/
def vCheckColumnsAux (tbl : Option String) : List String → VReport → Except PyErr VReport
  | [], r => .ok r
  | col :: rest, r =>
    match get_table_columns_opt tbl with
    | none => .error (.typeError "argument of type 'NoneType' is not iterable")
    | some cs =>
      if cs.contains col then vCheckColumnsAux tbl rest r
      else vCheckColumnsAux tbl rest
        { r with valid := false, issues := r.issues ++ [column_issue tbl col] }

/-- The column-existence loop over the report's components. -/
def vCheckColumns (r : VReport) : Except PyErr VReport := vCheckColumnsAux r.tbl r.columns r

/-- The numeric check for sum/average queries: `columns[0]` (an `IndexError`
if empty), a sample record (`{}` for an empty/unknown table), and the
`isinstance` test. -/
def vCheckNumeric (query : String) (r : VReport) : Except PyErr VReport :=
  if is_sum query || is_avg query then
    match r.columns with
    | [] => .error (.indexError "list index out of range")
    | column :: _ =>
      let sample : Record :=
        match get_table_opt r.tbl with
        | [] => []
        | rec :: _ => rec
      if isNumericOpt (recordGet sample column) then .ok r
      else .ok { r with valid := false, issues := r.issues ++ [numeric_issue column] }
  else .ok r

/-- The component-check phase of `validate_query`, run only when extraction
left the report valid: the table check, the column loop, then the numeric
check. -/
def vPhase2 (query : String) (r1 : VReport) : Except PyErr VReport :=
  match vCheckColumns (vCheckTable r1) with
  | .error e => .error e
  | .ok r2 => vCheckNumeric query r2

/-- The `try` body of `validate_query`: guard, intent-specific extraction into
the components (only the sum and filter intents are handled; everything else
gets the "Could not determine query type" issue), then — only when still
valid — the table, column and numeric checks. -/
def validate_inner (natural_query : String) : Except PyErr VReport :=
  if natural_query = "" then .error empty_query_err
  else
    let query := pyLower natural_query
    let r0 : VReport :=
      { valid := true, query := natural_query, tbl := none,
        columns := [], conditions := [], issues := [] }
    let r1 : VReport :=
      if is_sum query then
        match extract_table_and_column query ["amount", "price"] with
        | .ok tc => { r0 with tbl := some tc.1, columns := [tc.2] }
        | .error e => { r0 with valid := false, issues := [errStr e] }
      else if is_filter query then
        match extract_filter_condition query with
        | .ok tcv =>
          { r0 with tbl := some tcv.1, columns := [tcv.2.1],
                    conditions := [(tcv.2.1, "=", tcv.2.2)] }
        | .error e => { r0 with valid := false, issues := [errStr e] }
      else { r0 with valid := false, issues := ["Could not determine query type"] }
    if r1.valid then vPhase2 query r1 else .ok r1

/-- Embeds `QueryProcessor.validate_query`: the outer `except` clause turns every
internal exception into the `status: "error"` payload; nothing propagates. -/
def validate_query (natural_query : String) : VPayload :=
  match validate_inner natural_query with
  | .ok r => .report r
  | .error e => .failure natural_query (errStr e)

/-! ### Spec-side definitions for claim C1

The specification states the filter-condition regex as
`<keyword>\s+\w+\s*=?\s*'?\w+'?`, with the `=` sign optional; the code's
`_is_filter` (see `condSuffix`) makes the `=` mandatory.  The following
matcher is modelled from the spec's words, for stating that claim; it is not
part of the source embedding. -/

/-- Modelled from the spec: the tail of `<keyword>\s+\w+\s*=?\s*'?\w+'?`
after the keyword, with the `=` optional. -/
def condSuffixSpec (cs : List Char) : Bool :=
  match cs with
  | [] => false
  | c :: rest =>
    isSpaceChar c &&
      (let r1 := rest.dropWhile isSpaceChar
       match r1 with
       | [] => false
       | d :: r2 =>
         isWordChar d &&
           (let r3 := (r2.dropWhile isWordChar).dropWhile isSpaceChar
            let r4 := match r3 with
              | '=' :: rr => rr.dropWhile isSpaceChar
              | rr => rr
            let r5 := skipQuote r4
            match r5 with
            | e :: _ => isWordChar e
            | [] => false))

/-- Modelled from the spec: one search position of the spec's condition
regex for a given keyword. -/
def condMatchAtSpec (kw cs : List Char) : Bool :=
  match dropLit kw cs with
  | some rest => condSuffixSpec rest
  | none => false

/-- Modelled from the spec: some filter keyword's spec-side condition regex
matches somewhere in the query. -/
def spec_condition_found (query : String) : Bool :=
  filter_keywords.any fun kw => searchB (condMatchAtSpec kw.data) query.data

/-! ### Helper instances and lemmas -/

instance {ε α : Type} [DecidableEq ε] [DecidableEq α] : DecidableEq (Except ε α) := fun x y =>
  match x, y with
  | .ok a, .ok b =>
    if h : a = b then .isTrue (by rw [h]) else .isFalse (fun hc => h (Except.ok.inj hc))
  | .error a, .error b =>
    if h : a = b then .isTrue (by rw [h]) else .isFalse (fun hc => h (Except.error.inj hc))
  | .ok _, .error _ => .isFalse (fun hc => Except.noConfusion hc)
  | .error _, .ok _ => .isFalse (fun hc => Except.noConfusion hc)

theorem pyLower_eq_empty {q : String} (h : pyLower q = "") : q = "" := by
  have hd : (pyLower q).data = q.data.map lowerChar := rfl
  have : q.data.map lowerChar = [] := by rw [← hd, h]
  have hq : q.data = [] := List.map_eq_nil_iff.mp this
  cases q
  simp_all

theorem is_filter_false_of_no_table {q : String} (h : find_table_in_query q = none) :
    is_filter q = false := by
  simp [is_filter, h]

theorem names_cases {t : String} (h : t ∈ get_table_names) :
    t = "sales" ∨ t = "customers" ∨ t = "products" := by
  simpa [get_table_names, dbTables, DATABASE_SCHEMA] using h

theorem get_table_columns_some {t : String} {cols : List String}
    (h : get_table_columns t = some cols) :
    ∃ r rs, get_table t = r :: rs ∧ cols = r.map Prod.fst ∧ t ∈ get_table_names := by
  unfold get_table_columns at h
  cases hf : dbTables.find? (fun p => p.1 == t) with
  | none => rw [hf] at h; exact absurd h (by simp)
  | some p =>
    simp only [hf] at h
    cases hp : p.2 with
    | nil => simp only [hp] at h; exact absurd h (by simp)
    | cons r rs =>
      simp only [hp] at h
      have hpt : p.1 = t := by simpa using List.find?_some hf
      have hmem : p ∈ dbTables := List.mem_of_find?_eq_some hf
      refine ⟨r, rs, ?_, ?_, ?_⟩
      · unfold get_table; simp only [hf]; exact hp
      · exact (Option.some.inj h).symm
      · rw [← hpt]; exact List.mem_map_of_mem _ hmem

theorem contains_eq_false_of_not_mem {cols : List String} {c : String} (h : c ∉ cols) :
    cols.contains c = false := by
  cases hb : cols.contains c with
  | false => rfl
  | true => exact absurd (List.mem_of_elem_eq_true hb) h

theorem recordGet_eq_none {r : Record} {c : String} (h : c ∉ r.map Prod.fst) :
    recordGet r c = none := by
  unfold recordGet
  cases hf : r.find? (fun kv => kv.1 == c) with
  | none => rfl
  | some kv =>
    exfalso
    apply h
    have h1 : kv.1 = c := by simpa using List.find?_some hf
    rw [← h1]
    exact List.mem_map_of_mem _ (List.mem_of_find?_eq_some hf)

/-! ### Claim theorems -/

/-- C3: the intent predicates are evaluated in the fixed order sum, filter,
select_all, count, average, so every query whose lowercased form contains one
of the sum phrases is classified as a sum query — `process_query` dispatches
to the sum processor — regardless of which other predicates it satisfies. -/
theorem sum_priority_first (q : String) (h : is_sum (pyLower q) = true) :
    intentOf (pyLower q) = some Intent.sum ∧
      process_query q = pq_wrap (process_sum (pyLower q)) := by
  have hq : q ≠ "" := by
    intro h0
    rw [h0] at h
    exact absurd h (by decide)
  constructor
  · simp [intentOf, h]
  · simp [process_query, pq_body, pq_dispatch, hq, h]

/-- Witness for C3 at a query that also matches the filter, select-all, count
and average predicates. -/
theorem sum_priority_first_witness :
    intentOf (pyLower "Show me all sales where total = 5 and count the average") =
        some Intent.sum ∧
      process_query "Show me all sales where total = 5 and count the average" =
        pq_wrap (process_sum (pyLower "Show me all sales where total = 5 and count the average")) :=
  sum_priority_first "Show me all sales where total = 5 and count the average" (by decide)

/-- C5: for every table with zero records and every column, the average
operation returns a success payload with average 0, count 0 and a warning,
not an error. -/
theorem average_empty_table_warns (tbl column : String) (h : get_table tbl = []) :
    avg_over tbl column = .ok (.averageP tbl column 0 0 (some "Table is empty")) := by
  simp [avg_over, h]

/-- Witness for C5: the store returns zero records for the name "inventory". -/
theorem average_empty_table_warns_witness :
    get_table "inventory" = [] ∧
      avg_over "inventory" "amount" =
        .ok (.averageP "inventory" "amount" 0 0 (some "Table is empty")) :=
  ⟨by decide, average_empty_table_warns "inventory" "amount" (by decide)⟩

/-- C6: whenever table extraction succeeds, a select-all query returns a
success payload whose results are exactly the Table Store's records for the
table, with the count field equal to the length of the results. -/
theorem select_all_returns_store_contents (q tbl : String)
    (h : extract_table_name q = .ok tbl) :
    process_select_all q = .ok (.selectAllP tbl (get_table tbl) (get_table tbl).length) := by
  simp [process_select_all, h]

/-- Witness for C6 on the sales table. -/
theorem select_all_returns_store_contents_witness :
    extract_table_name "show me all sales" = .ok "sales" ∧
      process_select_all "show me all sales" =
        .ok (.selectAllP "sales" (get_table "sales") (get_table "sales").length) :=
  ⟨by decide, select_all_returns_store_contents "show me all sales" "sales" (by decide)⟩

/-- C7: the filter operation on table "sales", column "region", value "north"
returns exactly the two seed records with region "North" (ids 1 and 5) and
count 2; in general it keeps exactly the records whose stringified,
lowercased column value equals the lowercased filter value, and an empty
result set is still a success. -/
theorem filter_seed_north :
    (filter_over "sales" "region" "north" =
      .ok (.filterP "sales" "region" "north"
        [[("id", .int 1), ("product", .str "Laptop"), ("amount", .int 1200),
          ("date", .str "2023-01-15"), ("region", .str "North")],
         [("id", .int 5), ("product", .str "Phone"), ("amount", .int 800),
          ("date", .str "2023-01-19"), ("region", .str "North")]] 2)) ∧
    (∀ tbl column value : String, ∀ r : Record,
      r ∈ filter_matches tbl column value ↔
        r ∈ get_table tbl ∧ pyLower (pyStrD (recordGet r column)) = pyLower value) ∧
    (∀ tbl column value : String, exOk (filter_over tbl column value) = true) := by
  refine ⟨by decide, ?_, fun _ _ _ => rfl⟩
  intro tbl column value r
  simp [filter_matches, List.mem_filter]

/-- Witness for C7: the first matching seed record satisfies the
characterization. -/
theorem filter_seed_north_witness :
    ([("id", Value.int 1), ("product", Value.str "Laptop"), ("amount", Value.int 1200),
      ("date", Value.str "2023-01-15"), ("region", Value.str "North")] : Record) ∈
      filter_matches "sales" "region" "north" :=
  (filter_seed_north.2.1 "sales" "region" "north" _).mpr (by decide)

/-- C8: the sum operation on table "sales", column "amount" over the seed
data returns total 4450, both at the operation layer and end-to-end through
`process_query`. -/
theorem sum_seed_amount_total :
    sum_over "sales" "amount" = .ok (.sumP "sales" "amount" 4450) ∧
      process_query "what is the total amount of sales" = .ok (.sumP "sales" "amount" 4450) :=
  ⟨by decide, by decide⟩

/-- Is a processor result an `InvalidQueryError`? -/
def isInvalidQueryE : Except PyErr Payload → Bool
  | .error (.invalidQuery _ _ _) => true
  | _ => false

/-- C1 fails on the code: the spec's example query "show me all sales where
region is north" satisfies every hypothesis of the claim — a filter keyword,
a known table name, a condition phrase in the spec's `=`-optional sense, and
no sum phrase — yet `process_query` classifies it as select_all, because
`_is_filter`'s regex requires a literal `=` sign. -/
theorem filter_claim_counterexample :
    (filter_keywords.any fun kw =>
        containsSubstr "show me all sales where region is north" kw) = true ∧
      (find_table_in_query "show me all sales where region is north").isSome = true ∧
      spec_condition_found "show me all sales where region is north" = true ∧
      is_sum "show me all sales where region is north" = false ∧
      okQueryType (process_query "show me all sales where region is north") =
        some "select_all" :=
  ⟨by decide, by decide, by decide, by decide, by decide⟩

/-- C1 (amended): with the `=` sign mandatory in the condition regex — as
`_is_filter` implements it — a query containing a filter keyword, a known
table name and a matching condition, and matching no sum phrase, is assigned
the filter intent: `process_query` dispatches to the filter processor and can
therefore never produce a select-all payload (it yields a filter payload, or
an error when condition extraction fails). -/
theorem filter_intent_requires_eq_sign (q : String)
    (h1 : (filter_keywords.any fun kw => containsSubstr (pyLower q) kw) = true)
    (h2 : (find_table_in_query (pyLower q)).isSome = true)
    (h3 : (filter_keywords.any fun kw => searchB (condMatchAt kw.data) (pyLower q).data) = true)
    (h4 : is_sum (pyLower q) = false) :
    intentOf (pyLower q) = some Intent.filter ∧
      process_query q = pq_wrap (process_filter (pyLower q)) ∧
      (okQueryType (process_query q) = some "filter" ∨
        okQueryType (process_query q) = none) := by
  have hf : is_filter (pyLower q) = true := by
    simp only [is_filter, h1, h2, h3, Bool.and_self, Bool.true_and]
  have hq : q ≠ "" := by
    intro h0
    rw [h0] at h2
    exact absurd h2 (by decide)
  have hpq : process_query q = pq_wrap (process_filter (pyLower q)) := by
    simp [process_query, pq_body, pq_dispatch, hq, h4, hf]
  refine ⟨by simp [intentOf, h4, hf], hpq, ?_⟩
  rw [hpq]
  cases hext : extract_filter_condition (pyLower q) with
  | error e => right; simp [process_filter, hext, pq_wrap, okQueryType]
  | ok tcv => left; simp [process_filter, hext, filter_over, pq_wrap, okQueryType, query_type_of]

/-- Witness for the amended C1 at a mixed-case query with an explicit `=`. -/
theorem filter_intent_requires_eq_sign_witness :
    intentOf (pyLower "Filter sales where region = north") = some Intent.filter ∧
      process_query "Filter sales where region = north" =
        pq_wrap (process_filter (pyLower "Filter sales where region = north")) ∧
      (okQueryType (process_query "Filter sales where region = north") = some "filter" ∨
        okQueryType (process_query "Filter sales where region = north") = none) :=
  filter_intent_requires_eq_sign "Filter sales where region = north"
    (by decide) (by decide) (by decide) (by decide)

/-- C2 fails on the code: "show me all inventory" references no known table,
and `process_query` does fail — but with a `DatabaseError` (the select-all
processor wraps the table-not-found `InvalidQueryError`), not with an
`InvalidQueryError` carrying the table list in its structured details. -/
theorem unknown_table_error_kind_counterexample :
    find_table_in_query (pyLower "show me all inventory") = none ∧
      exOk (process_query "show me all inventory") = false ∧
      isInvalidQueryE (process_query "show me all inventory") = false :=
  ⟨by decide, by decide, by decide⟩

/-- C2 (amended): every query referencing no known table name makes
`process_query` fail, but never with an `InvalidQueryError` whose structured
details list the table names — any `InvalidQueryError` it raises carries
empty details.  Branch by branch (filter classification is impossible
without a table): the select-all, count and average branches raise a
`DatabaseError` whose message merely embeds the table-not-found text (and
the table list) as a string; the sum branch raises an `InvalidQueryError`
wrapping the handler's own `UnboundLocalError`; the no-intent case raises an
`InvalidQueryError` wrapping the supported-intents error. -/
theorem unknown_table_query_fails (q : String)
    (h : find_table_in_query (pyLower q) = none) :
    exOk (process_query q) = false ∧
      (∀ m : String, ∀ qf : Option String, ∀ d : Details,
        process_query q = .error (.invalidQuery m qf d) → d = []) ∧
      (is_sum (pyLower q) = true →
        process_query q =
          .error (.invalidQuery ("Error processing query: " ++ errStr sum_handler_fault)
            none [])) ∧
      (is_sum (pyLower q) = false → is_select_all (pyLower q) = true →
        process_query q =
          .error (.database ("Failed to retrieve data: " ++ errStr table_not_found_err)
            none none [])) ∧
      (is_sum (pyLower q) = false → is_select_all (pyLower q) = false →
        is_count (pyLower q) = true →
        process_query q =
          .error (.database ("Failed to count records: " ++ errStr table_not_found_err)
            none none [])) ∧
      (is_sum (pyLower q) = false → is_select_all (pyLower q) = false →
        is_count (pyLower q) = false → is_avg (pyLower q) = true →
        process_query q =
          .error (.database
            ("Failed to calculate average: " ++
              errStr (.invalidQuery
                ("Failed to extract table/column: " ++ errStr table_not_found_err)
                none []))
            none none [])) ∧
      (q ≠ "" → is_sum (pyLower q) = false → is_select_all (pyLower q) = false →
        is_count (pyLower q) = false → is_avg (pyLower q) = false →
        process_query q =
          .error (.invalidQuery ("Error processing query: " ++ errStr no_intent_err)
            none [])) := by
  by_cases hq : q = ""
  · subst hq
    have hpq : process_query "" =
        .error (.invalidQuery ("Error processing query: " ++ errStr empty_query_err)
          none []) := by decide
    refine ⟨by decide, ?_, fun h1 => absurd h1 (by decide),
      fun _ h2 => absurd h2 (by decide), fun _ _ h3 => absurd h3 (by decide),
      fun _ _ _ h4 => absurd h4 (by decide), fun hne _ _ _ _ => absurd rfl hne⟩
    intro m qf d heq
    rw [hpq] at heq
    injection heq with h'
    injection h' with hm hqf hd
    exact hd.symm
  · have hext : extract_table_name (pyLower q) = .error table_not_found_err := by
      unfold extract_table_name
      unfold find_table_in_query at h
      rw [h]
    have hfil : is_filter (pyLower q) = false := is_filter_false_of_no_table h
    by_cases hs : is_sum (pyLower q)
    · have hpq : process_query q =
          .error (.invalidQuery ("Error processing query: " ++ errStr sum_handler_fault)
            none []) := by
        simp [process_query, pq_body, pq_dispatch, hq, hs, process_sum,
          extract_table_and_column, extract_tc_inner, hext, sum_handler_fault,
          pq_wrap, errStr]
      refine ⟨by rw [hpq]; rfl, ?_, fun _ => hpq,
        fun h1 _ => absurd hs (by simp [h1]), fun h1 _ _ => absurd hs (by simp [h1]),
        fun h1 _ _ _ => absurd hs (by simp [h1]), fun _ h1 _ _ _ => absurd hs (by simp [h1])⟩
      intro m qf d heq
      rw [hpq] at heq
      injection heq with h'
      injection h' with hm hqf hd
      exact hd.symm
    · by_cases hsel : is_select_all (pyLower q)
      · have hpq : process_query q =
            .error (.database ("Failed to retrieve data: " ++ errStr table_not_found_err)
              none none []) := by
          simp [process_query, pq_body, pq_dispatch, hq, hs, hfil, hsel,
            process_select_all, hext, pq_wrap]
        refine ⟨by rw [hpq]; rfl, ?_, fun h1 => absurd h1 hs, fun _ _ => hpq,
          fun _ h2 _ => absurd hsel (by simp [h2]), fun _ h2 _ _ => absurd hsel (by simp [h2]),
          fun _ _ h2 _ _ => absurd hsel (by simp [h2])⟩
        intro m qf d heq
        rw [hpq] at heq
        simp at heq
      · by_cases hc : is_count (pyLower q)
        · have hpq : process_query q =
              .error (.database ("Failed to count records: " ++ errStr table_not_found_err)
                none none []) := by
            simp [process_query, pq_body, pq_dispatch, hq, hs, hfil, hsel, hc,
              process_count, hext, pq_wrap]
          refine ⟨by rw [hpq]; rfl, ?_, fun h1 => absurd h1 hs, fun _ h2 => absurd h2 hsel,
            fun _ _ _ => hpq, fun _ _ h3 _ => absurd hc (by simp [h3]),
            fun _ _ _ h3 _ => absurd hc (by simp [h3])⟩
          intro m qf d heq
          rw [hpq] at heq
          simp at heq
        · by_cases ha : is_avg (pyLower q)
          · have hpq : process_query q =
                .error (.database
                  ("Failed to calculate average: " ++
                    errStr (.invalidQuery
                      ("Failed to extract table/column: " ++ errStr table_not_found_err)
                      none []))
                  none none []) := by
              simp [process_query, pq_body, pq_dispatch, hq, hs, hfil, hsel, hc, ha,
                process_avg, extract_table_and_column, extract_tc_inner, hext, pq_wrap]
            refine ⟨by rw [hpq]; rfl, ?_, fun h1 => absurd h1 hs, fun _ h2 => absurd h2 hsel,
              fun _ _ h3 => absurd h3 hc, fun _ _ _ _ => hpq,
              fun _ _ _ _ h4 => absurd ha (by simp [h4])⟩
            intro m qf d heq
            rw [hpq] at heq
            simp at heq
          · have hpq : process_query q =
                .error (.invalidQuery ("Error processing query: " ++ errStr no_intent_err)
                  none []) := by
              simp [process_query, pq_body, pq_dispatch, hq, hs, hfil, hsel, hc, ha,
                no_intent_err, pq_wrap]
            refine ⟨by rw [hpq]; rfl, ?_, fun h1 => absurd h1 hs, fun _ h2 => absurd h2 hsel,
              fun _ _ h3 => absurd h3 hc, fun _ _ _ h4 => absurd h4 ha,
              fun _ _ _ _ _ => hpq⟩
            intro m qf d heq
            rw [hpq] at heq
            injection heq with h'
            injection h' with hm hqf hd
            exact hd.symm

/-- Witness for the amended C2: the select-all branch's `DatabaseError` and
the sum branch's wrapped `UnboundLocalError`, each at an unknown-table
query. -/
theorem unknown_table_query_fails_witness :
    exOk (process_query "list all warehouses") = false ∧
      process_query "list all warehouses" =
        .error (.database ("Failed to retrieve data: " ++ errStr table_not_found_err)
          none none []) ∧
      process_query "total amount of inventory" =
        .error (.invalidQuery ("Error processing query: " ++ errStr sum_handler_fault)
          none []) :=
  ⟨(unknown_table_query_fails "list all warehouses" (by decide)).1,
   (unknown_table_query_fails "list all warehouses" (by decide)).2.2.2.1
     (by decide) (by decide),
   (unknown_table_query_fails "total amount of inventory" (by decide)).2.2.1 (by decide)⟩

theorem intentOf_none_elim {l : String} (h : intentOf l = none) :
    is_sum l = false ∧ is_filter l = false ∧ is_select_all l = false ∧
      is_count l = false ∧ is_avg l = false := by
  have h1 : is_sum l = false := by
    cases hb : is_sum l
    · rfl
    · simp [intentOf, hb] at h
  have h2 : is_filter l = false := by
    cases hb : is_filter l
    · rfl
    · simp [intentOf, h1, hb] at h
  have h3 : is_select_all l = false := by
    cases hb : is_select_all l
    · rfl
    · simp [intentOf, h1, h2, hb] at h
  have h4 : is_count l = false := by
    cases hb : is_count l
    · rfl
    · simp [intentOf, h1, h2, h3, hb] at h
  have h5 : is_avg l = false := by
    cases hb : is_avg l
    · rfl
    · simp [intentOf, h1, h2, h3, h4, hb] at h
  exact ⟨h1, h2, h3, h4, h5⟩

/-- C9: `explain_query` never lets an exception past its boundary: on a query
matching no intent predicate it returns a payload with status "error", and
whenever its body fails for any reason the result is likewise an error-shaped
payload rather than a propagating exception. -/
theorem explain_never_raises :
    (∀ q : String, intentOf (pyLower q) = none → eStatus (explain_query q) = "error") ∧
      (∀ q : String, (explain_inner q).isOk = false → eStatus (explain_query q) = "error") := by
  constructor
  · intro q h
    by_cases hq : q = ""
    · subst hq; decide
    · obtain ⟨h1, h2, h3, h4, h5⟩ := intentOf_none_elim h
      have hinner : explain_inner q = .error no_intent_err := by
        simp [explain_inner, hq, h1, h2, h3, h4, h5]
      simp [explain_query, hinner, no_intent_err, eStatus]
  · intro q h
    cases he : explain_inner q with
    | ok e => rw [he] at h; exact absurd h (by simp [Except.isOk, Except.toBool])
    | error e => cases e <;> simp [explain_query, he, eStatus]

/-- Witness for C9 at an intentless query and a failing body. -/
theorem explain_never_raises_witness :
    eStatus (explain_query "hello world") = "error" ∧
      eStatus (explain_query "show me all warehouses") = "error" :=
  ⟨explain_never_raises.1 "hello world" (by decide),
   explain_never_raises.2 "show me all warehouses" (by decide)⟩

/-- C10: `validate_query` recognizes only the sum and filter intents — every
query that the predicate chain sends to select_all, count or average comes
back invalid with the issue "Could not determine query type", even though
`process_query` executes such queries (exhibited on "show me all sales"). -/
theorem validate_only_sum_filter :
    (∀ q : String, is_sum (pyLower q) = false → is_filter (pyLower q) = false →
      (is_select_all (pyLower q) || is_count (pyLower q) || is_avg (pyLower q)) = true →
      validate_query q = .report
        { valid := false, query := q, tbl := none, columns := [],
          conditions := [], issues := ["Could not determine query type"] }) ∧
      validate_query "show me all sales" = .report
        { valid := false, query := "show me all sales", tbl := none, columns := [],
          conditions := [], issues := ["Could not determine query type"] } ∧
      process_query "show me all sales" =
        .ok (.selectAllP "sales" (get_table "sales") 5) := by
  refine ⟨?_, by decide, by decide⟩
  intro q h1 h2 h3
  have hq : q ≠ "" := by
    intro h0
    rw [h0] at h3
    exact absurd h3 (by decide)
  simp [validate_query, validate_inner, hq, h1, h2]

/-- Witness for C10's universal part at a count query. -/
theorem validate_only_sum_filter_witness :
    validate_query "count customers" = .report
      { valid := false, query := "count customers", tbl := none, columns := [],
        conditions := [], issues := ["Could not determine query type"] } :=
  validate_only_sum_filter.1 "count customers" (by decide) (by decide) (by decide)

theorem vPhase2_missing_col (query : String) {t c : String} {cols : List String}
    (hcols : get_table_columns t = some cols) (hc : c ∉ cols)
    (r1 : VReport) (htbl : r1.tbl = some t) (hcolumns : r1.columns = [c]) :
    ∃ r3 : VReport, vPhase2 query r1 = .ok r3 ∧
      r3.valid = false ∧ column_issue (some t) c ∈ r3.issues := by
  obtain ⟨rec, rs, hget, hkeys, hmem⟩ := get_table_columns_some hcols
  have htne : t ≠ "" := by
    rcases names_cases hmem with rfl | rfl | rfl <;> decide
  have htne2 : (t == "") = false := by
    simp [htne]
  have hcontains : get_table_names.contains t = true := List.elem_eq_true_of_mem hmem
  have hvt : vCheckTable r1 = r1 := by
    simp [vCheckTable, htbl, tableTruthy, fmtOptStr, htne2, hmem]
  have hvc : vCheckColumns r1 =
      .ok { r1 with valid := false, issues := r1.issues ++ [column_issue (some t) c] } := by
    simp [vCheckColumns, htbl, hcolumns, vCheckColumnsAux, get_table_columns_opt, hcols, hc]
  have hrg : recordGet rec c = none := by
    apply recordGet_eq_none
    rw [← hkeys]
    exact hc
  cases hb : (is_sum query || is_avg query) with
  | false =>
    refine ⟨{ r1 with
              valid := false,
              issues := r1.issues ++ [column_issue (some t) c] }, ?_, rfl, by simp⟩
    simp [vPhase2, hvt, hvc, vCheckNumeric, hb]
  | true =>
    refine ⟨{ r1 with
              valid := false,
              issues := (r1.issues ++ [column_issue (some t) c]) ++ [numeric_issue c] },
            ?_, rfl, by simp⟩
    simp [vPhase2, hvt, hvc, vCheckNumeric, hb, hcolumns, get_table_opt, htbl, hget,
      hrg, isNumericOpt]

/-- C4: whenever extraction yields a column missing from the (existing)
extracted table — on the sum route or the filter route — `validate_query`
reports `valid: false` with an issue naming the column and listing the
table's actual columns; and for every input it returns a structured payload
of one of the two shapes, never letting an exception past its boundary. -/
theorem validate_missing_column_reports :
    (∀ q t c : String, ∀ cols : List String,
      is_sum (pyLower q) = true →
      extract_table_and_column (pyLower q) ["amount", "price"] = .ok (t, c) →
      get_table_columns t = some cols → c ∉ cols →
      vValid (validate_query q) = false ∧
        column_issue (some t) c ∈ vIssues (validate_query q)) ∧
      (∀ q t c v : String, ∀ cols : List String,
        is_sum (pyLower q) = false → is_filter (pyLower q) = true →
        extract_filter_condition (pyLower q) = .ok (t, (c, v)) →
        get_table_columns t = some cols → c ∉ cols →
        vValid (validate_query q) = false ∧
          column_issue (some t) c ∈ vIssues (validate_query q)) ∧
      (∀ s : String,
        vStatus (validate_query s) = "success" ∨ vStatus (validate_query s) = "error") := by
  refine ⟨?_, ?_, ?_⟩
  · intro q t c cols hs hx hcols hc
    have hq : q ≠ "" := by
      intro h0
      rw [h0] at hs
      exact absurd hs (by decide)
    have hinner : validate_inner q =
        vPhase2 (pyLower q)
          { valid := true, query := q, tbl := some t,
            columns := [c], conditions := [], issues := [] } := by
      simp [validate_inner, hq, hs, hx]
    obtain ⟨r3, heq, hval, hmem⟩ :=
      vPhase2_missing_col (pyLower q) hcols hc
        { valid := true, query := q, tbl := some t,
          columns := [c], conditions := [], issues := [] } rfl rfl
    have hv : validate_query q = .report r3 := by
      simp [validate_query, hinner, heq]
    rw [hv]
    exact ⟨hval, hmem⟩
  · intro q t c v cols hs hf hx hcols hc
    have hq : q ≠ "" := by
      intro h0
      rw [h0] at hf
      exact absurd hf (by decide)
    have hinner : validate_inner q =
        vPhase2 (pyLower q)
          { valid := true, query := q, tbl := some t,
            columns := [c], conditions := [(c, "=", v)], issues := [] } := by
      simp [validate_inner, hq, hs, hf, hx]
    obtain ⟨r3, heq, hval, hmem⟩ :=
      vPhase2_missing_col (pyLower q) hcols hc
        { valid := true, query := q, tbl := some t,
          columns := [c], conditions := [(c, "=", v)], issues := [] } rfl rfl
    have hv : validate_query q = .report r3 := by
      simp [validate_query, hinner, heq]
    rw [hv]
    exact ⟨hval, hmem⟩
  · intro s
    cases h : validate_inner s with
    | ok r => left; simp [validate_query, h, vStatus]
    | error e => right; simp [validate_query, h, vStatus]

/-- Witness for C4: "total price of sales" extracts column "price", which the
sales table lacks; "filter sales where regio = north" extracts column
"regio", also missing. -/
theorem validate_missing_column_reports_witness :
    (vValid (validate_query "total price of sales") = false ∧
      column_issue (some "sales") "price" ∈ vIssues (validate_query "total price of sales")) ∧
      (vValid (validate_query "filter sales where regio = north") = false ∧
        column_issue (some "sales") "regio" ∈
          vIssues (validate_query "filter sales where regio = north")) :=
  ⟨validate_missing_column_reports.1 "total price of sales" "sales" "price"
      ["id", "product", "amount", "date", "region"]
      (by decide) (by decide) (by decide) (by decide),
   validate_missing_column_reports.2.1 "filter sales where regio = north" "sales" "regio" "north"
      ["id", "product", "amount", "date", "region"]
      (by decide) (by decide) (by decide) (by decide) (by decide)⟩
